import Mathlib

/-!
Shallow embedding of the DRL second-hand price-prediction core
(`src/model/market_environment.py` and `src/model/drl_model.py`) and proofs
about its specified behaviour.

Modelling conventions:
* Python floats are modelled as exact rationals (`ℚ`); every claim settled
  here is about branch structure and algebraic form, not float rounding.
* Calls to `random.random()` / `random.uniform(a, b)` are modelled by an
  explicit stream of draws `u ∈ [0,1)`; CPython's `random.uniform a b`
  returns `a + (b-a)*u` for such a draw.
* `np.exp` is an external transcendental routine; it is threaded through as
  an explicit function parameter `expFn : ℚ → ℚ` (both runs of a
  determinism comparison share the same routine, and no claim depends on
  its values).
* `datetime.now()` is modelled by an explicit `WallClock` argument
  (weekday 0–6, Monday = 0, and month 1–12), exactly the two fields the
  code reads.
* Fallible Python operations are modelled with `Except`: accessing an
  attribute / subscript of `None` and a call with an unexpected keyword
  argument produce errors.
-/

/-- Python exception kinds raised by the modelled code paths. -/
inductive PyErr where
  | typeError
  | attributeError
deriving DecidableEq, Repr

/-- Per-category reference statistics (`category_stats[cat_id]` entries). -/
structure CategoryStats where
  price_mean : ℚ
  price_std : ℚ
  price_min : ℚ
  price_max : ℚ
  avg_days_to_sell : ℚ
  std_days_to_sell : ℚ
deriving DecidableEq, Repr

/-- A listed item, as the dictionary fields the environment actually reads. -/
structure Item where
  price : ℚ
  condition : String
  category_id : String
deriving DecidableEq, Repr

/-- The two fields of `datetime.now()` read by `_extract_time_features`. -/
structure WallClock where
  weekday : ℕ
  month : ℕ
deriving DecidableEq, Repr

/-- `MarketEnvironment` object state: configured market parameters plus the
mutable episode fields `current_item` / `episode_step`. -/
structure MarketEnvironment where
  price_sensitivity : ℚ
  time_sensitivity : ℚ
  market_volatility : ℚ
  price_adjustment_lo : ℚ
  price_adjustment_hi : ℚ
  price_adjustment_steps : ℕ
  profit_weight : ℚ
  time_weight : ℚ
  max_steps : ℕ
  category_stats : String → Option CategoryStats
  current_item : Option Item
  episode_step : ℕ

namespace MarketEnvironment

/-- `self.action_space_size = self.price_adjustment_steps`. -/
def action_space_size (env : MarketEnvironment) : ℕ :=
  env.price_adjustment_steps

/-- `self.price_step = (range[1] - range[0]) / (steps - 1)` computed in
`__init__`. -/
def price_step (env : MarketEnvironment) : ℚ :=
  (env.price_adjustment_hi - env.price_adjustment_lo) /
    ((env.price_adjustment_steps : ℚ) - 1)

/-- `_action_to_adjustment`: clamp the index into
`[0, action_space_size - 1]` and map it linearly. -/
def action_to_adjustment (env : MarketEnvironment) (action : ℤ) : ℚ :=
  let a : ℤ := max 0 (min action ((env.action_space_size : ℤ) - 1))
  env.price_adjustment_lo + (a : ℚ) * env.price_step

/-- Does `s` match `pat` at its head? (helper for Python's `in` on strings). -/
def matchesAt : List Char → List Char → Bool
  | [], _ => true
  | _ :: _, [] => false
  | p :: ps, c :: cs => p == c && matchesAt ps cs

/-- Python's substring containment `pat in s` over character lists. -/
def containsPat (pat : List Char) : List Char → Bool
  | [] => pat.isEmpty
  | c :: cs => matchesAt pat (c :: cs) || containsPat pat cs

/-- Python's `condition.lower()` (ASCII lowering suffices for the condition
strings used by this repository). -/
def pyLower (s : String) : List Char :=
  s.toList.map Char.toLower

/-- `_condition_to_score`: lowercase, then test substrings in source order.
Note the `"new" in condition` test runs before `"like new" in condition`. -/
def condition_to_score (condition : String) : ℚ :=
  let c := pyLower condition
  if containsPat "new".toList c then 1
  else if containsPat "like new".toList c then 9/10
  else if containsPat "very good".toList c then 8/10
  else if containsPat "good".toList c then 6/10
  else if containsPat "acceptable".toList c then 4/10
  else if containsPat "for parts".toList c || containsPat "not working".toList c then 1/10
  else 5/10

/-- `category_stats.get(cat, {}).get("price_mean", 500.0)`. -/
def stat_price_mean (env : MarketEnvironment) (cat : String) : ℚ :=
  ((env.category_stats cat).map CategoryStats.price_mean).getD 500

/-- `category_stats.get(cat, {}).get("price_std", 200.0)`. -/
def stat_price_std (env : MarketEnvironment) (cat : String) : ℚ :=
  ((env.category_stats cat).map CategoryStats.price_std).getD 200

/-- `category_stats.get(cat, {}).get("avg_days_to_sell", 10.0)`. -/
def stat_avg_days (env : MarketEnvironment) (cat : String) : ℚ :=
  ((env.category_stats cat).map CategoryStats.avg_days_to_sell).getD 10

/-- `category_stats.get(cat, {}).get("std_days_to_sell", 5.0)`. -/
def stat_std_days (env : MarketEnvironment) (cat : String) : ℚ :=
  ((env.category_stats cat).map CategoryStats.std_days_to_sell).getD 5

/-- CPython `random.uniform a b` given the underlying `random.random()`
draw `u`. -/
def pyUniform (a b u : ℚ) : ℚ :=
  a + (b - a) * u

/-- `_calculate_market_response` on a given current item; `u1`, `u2` are the
two `random.random()` draws behind the two `random.uniform` calls, and
`expFn` stands for `np.exp`. Returns `(sale_probability, expected_days)`. -/
def calculate_market_response (env : MarketEnvironment) (item : Item)
    (expFn : ℚ → ℚ) (u1 u2 : ℚ) : ℚ × ℚ :=
  let cat := item.category_id
  let price_mean := env.stat_price_mean cat
  let price_std := env.stat_price_std cat
  let avg_days := env.stat_avg_days cat
  let std_days := env.stat_std_days cat
  let price_deviation := if price_std > 0 then (item.price - price_mean) / price_std else 0
  let sale_probability := 1 / (1 + expFn (env.price_sensitivity * price_deviation))
  let sale_probability :=
    min 1 (max (1/100) (sale_probability + pyUniform (-1/10) (1/10) u1 * env.market_volatility))
  let expected_days := avg_days * (1 + env.time_sensitivity * price_deviation)
  let expected_days :=
    max 1 (expected_days + pyUniform (-1) 1 u2 * std_days * env.market_volatility)
  (sale_probability, expected_days)

/-- `_calculate_reward`: profit term weighted by sale probability minus the
weighted time penalty. `cat` is `current_item["category_id"]`. -/
def calculate_reward (env : MarketEnvironment) (original_price new_price : ℚ)
    (sale_probability expected_days : ℚ) (cat : String) : ℚ :=
  let estimated_cost := original_price * (7/10)
  let profit := new_price - estimated_cost
  let normalized_profit := if original_price > 0 then profit / original_price else 0
  let avg_days := env.stat_avg_days cat
  let time_penalty := if avg_days > 0 then expected_days / avg_days else expected_days / 10
  let profit_reward := normalized_profit * sale_probability * env.profit_weight
  let time_reward := -time_penalty * env.time_weight
  profit_reward + time_reward

/-- `_extract_item_features`: normalized price, condition score, and the 20
category one-hot flags, in source order. -/
def extract_item_features (env : MarketEnvironment) (item : Item) :
    List (String × ℚ) :=
  let cat := item.category_id
  let price_mean := env.stat_price_mean cat
  let price_std := env.stat_price_std cat
  let normalized_price := if price_std > 0 then (item.price - price_mean) / price_std else 0
  [("normalized_price", normalized_price),
   ("condition_score", condition_to_score item.condition),
   ("is_laptop", if cat = "9355" then 1 else 0),
   ("is_phone", if cat = "15032" then 1 else 0),
   ("is_watch", if cat = "11450" then 1 else 0),
   ("is_camera", if cat = "261007" then 1 else 0),
   ("is_tablet", if cat = "20081" then 1 else 0),
   ("is_game_console", if cat = "139971" then 1 else 0),
   ("is_headphone", if cat = "175672" then 1 else 0),
   ("is_computer_component", if cat = "11700" then 1 else 0),
   ("is_tv_audio", if cat = "3676" then 1 else 0),
   ("is_book", if cat = "293" then 1 else 0),
   ("is_clothing", if cat = "15724" then 1 else 0),
   ("is_toy", if cat = "11116" then 1 else 0),
   ("is_instrument", if cat = "619" then 1 else 0),
   ("is_sport", if cat = "888" then 1 else 0),
   ("is_appliance", if cat = "26395" then 1 else 0),
   ("is_furniture", if cat = "14308" then 1 else 0),
   ("is_art", if cat = "550" then 1 else 0),
   ("is_jewelry", if cat = "2984" then 1 else 0),
   ("is_tool", if cat = "1249" then 1 else 0),
   ("is_bicycle", if cat = "220" then 1 else 0)]

/-- `_extract_market_features`. -/
def extract_market_features (env : MarketEnvironment) (item : Item) :
    List (String × ℚ) :=
  let cat := item.category_id
  [("market_volatility", env.market_volatility),
   ("avg_days_to_sell", env.stat_avg_days cat / 30),
   ("price_std", env.stat_price_std cat / 1000)]

/-- `_extract_time_features` from the wall clock. -/
def extract_time_features (now : WallClock) : List (String × ℚ) :=
  [("day_of_week", (now.weekday : ℚ) / 6),
   ("month", ((now.month : ℚ) - 1) / 11),
   ("is_weekend", if now.weekday ≥ 5 then 1 else 0)]

/-- `_create_state` on a given current item and step counter: item features,
market features, time features, and the normalized step counter, merged in
source order (all keys are distinct, so dict merge is concatenation). -/
def create_state (env : MarketEnvironment) (item : Item) (estep : ℕ)
    (now : WallClock) : List (String × ℚ) :=
  env.extract_item_features item ++ env.extract_market_features item ++
    extract_time_features now ++ [("step", (estep : ℚ) / (env.max_steps : ℚ))]

/-- The fixed feature-key list every produced state carries. -/
def stateFeatureKeys : List String :=
  ["normalized_price", "condition_score",
   "is_laptop", "is_phone", "is_watch", "is_camera", "is_tablet",
   "is_game_console", "is_headphone", "is_computer_component", "is_tv_audio",
   "is_book", "is_clothing", "is_toy", "is_instrument", "is_sport",
   "is_appliance", "is_furniture", "is_art", "is_jewelry", "is_tool",
   "is_bicycle",
   "market_volatility", "avg_days_to_sell", "price_std",
   "day_of_week", "month", "is_weekend", "step"]

/-- `reset(item_data)` with a caller-supplied item: zero the step counter,
install the item, and return the new environment with the initial state. -/
def reset (env : MarketEnvironment) (item_data : Item) (now : WallClock) :
    MarketEnvironment × List (String × ℚ) :=
  let env' := { env with episode_step := 0, current_item := some item_data }
  (env', env'.create_state item_data 0 now)

/-- The `info` dictionary returned by `step`. -/
structure StepInfo where
  original_price : ℚ
  new_price : ℚ
  price_adjustment : ℚ
  sale_probability : ℚ
  expected_days : ℚ
  step : ℕ
deriving DecidableEq, Repr

/-- The body of `step` once `current_item` is known to be set. `u1`, `u2`
are this step's two `random.random()` draws and `now` is the wall clock at
state-construction time. -/
def step_core (env : MarketEnvironment) (item : Item) (expFn : ℚ → ℚ)
    (u1 u2 : ℚ) (now : WallClock) (action : ℤ) :
    MarketEnvironment × (List (String × ℚ) × ℚ × Bool × StepInfo) :=
  let estep := env.episode_step + 1
  let price_adjustment := env.action_to_adjustment action
  let original_price := item.price
  let new_price := original_price * (1 + price_adjustment)
  let item' : Item := { item with price := new_price }
  let (sale_probability, expected_days) :=
    env.calculate_market_response item' expFn u1 u2
  let reward :=
    env.calculate_reward original_price new_price sale_probability expected_days
      item'.category_id
  let env' := { env with episode_step := estep, current_item := some item' }
  let state := env'.create_state item' estep now
  let done := decide (estep ≥ env.max_steps)
  (env', (state, reward, done,
    { original_price := original_price, new_price := new_price,
      price_adjustment := price_adjustment,
      sale_probability := sale_probability, expected_days := expected_days,
      step := estep }))

/-- `step(action)` as callable on the object: before doing anything else it
reads `self.current_item["price"]`, which raises `TypeError` when the item
is still `None` (no `reset` has happened). -/
def stepPy (env : MarketEnvironment) (expFn : ℚ → ℚ) (u1 u2 : ℚ)
    (now : WallClock) (action : ℤ) :
    Except PyErr (MarketEnvironment × (List (String × ℚ) × ℚ × Bool × StepInfo)) :=
  match env.current_item with
  | none => .error .typeError
  | some item => .ok (env.step_core item expFn u1 u2 now action)

/-- `get_state_space_size`: builds one sample state from `current_item` and
returns its length; `_extract_item_features` calls `.get` on the item, which
raises `AttributeError` when the item is `None`. -/
def get_state_space_size (env : MarketEnvironment) (now : WallClock) :
    Except PyErr ℕ :=
  match env.current_item with
  | none => .error .attributeError
  | some item => .ok (env.create_state item env.episode_step now).length

/-- `get_state_feature_names`: key list of one sample state; same
`AttributeError` on a `None` item. -/
def get_state_feature_names (env : MarketEnvironment) (now : WallClock) :
    Except PyErr (List String) :=
  match env.current_item with
  | none => .error .attributeError
  | some item => .ok ((env.create_state item env.episode_step now).map Prod.fst)

/-- `__init__` with the given (config-derived) market parameters and loaded
category statistics: `current_item` starts as `None`, `episode_step` at 0. -/
def init (ps ts mv lo hi : ℚ) (steps : ℕ) (pw tw : ℚ) (ms : ℕ)
    (stats : String → Option CategoryStats) : MarketEnvironment :=
  { price_sensitivity := ps, time_sensitivity := ts, market_volatility := mv,
    price_adjustment_lo := lo, price_adjustment_hi := hi,
    price_adjustment_steps := steps, profit_weight := pw, time_weight := tw,
    max_steps := ms, category_stats := stats,
    current_item := none, episode_step := 0 }

/-- A run of `step` calls from a given current item: seeded draw stream
`stream` (each step consumes draws `pos` and `pos+1`) and per-step wall
clock `nowAt`. Collects the `(state, reward, done)` triple of every step. -/
def run_steps (env : MarketEnvironment) (item : Item) (expFn : ℚ → ℚ)
    (stream : ℕ → ℚ) (nowAt : ℕ → WallClock) (pos : ℕ) :
    List ℤ → List (List (String × ℚ) × ℚ × Bool)
  | [] => []
  | a :: as =>
    let r := env.step_core item expFn (stream pos) (stream (pos + 1)) (nowAt pos) a
    (r.2.1, r.2.2.1, r.2.2.2.1) ::
      run_steps r.1 { item with price := r.2.2.2.2.new_price } expFn stream nowAt
        (pos + 2) as

end MarketEnvironment

/-- The built-in mock category-statistics table generated by
`_generate_mock_category_stats` (all 20 categories). -/
def mockCategoryStats : String → Option CategoryStats := fun cat =>
  if cat = "9355" then some ⟨800, 300, 200, 2000, 125/10, 52/10⟩
  else if cat = "15032" then some ⟨400, 150, 100, 1200, 83/10, 37/10⟩
  else if cat = "11450" then some ⟨300, 200, 50, 1500, 102/10, 45/10⟩
  else if cat = "261007" then some ⟨500, 250, 150, 1800, 148/10, 63/10⟩
  else if cat = "20081" then some ⟨350, 200, 100, 1200, 105/10, 48/10⟩
  else if cat = "139971" then some ⟨300, 150, 100, 800, 75/10, 32/10⟩
  else if cat = "175672" then some ⟨120, 80, 20, 500, 68/10, 29/10⟩
  else if cat = "11700" then some ⟨180, 120, 30, 800, 92/10, 41/10⟩
  else if cat = "3676" then some ⟨450, 300, 100, 2000, 153/10, 67/10⟩
  else if cat = "293" then some ⟨25, 20, 5, 150, 185/10, 82/10⟩
  else if cat = "15724" then some ⟨60, 50, 10, 500, 142/10, 65/10⟩
  else if cat = "11116" then some ⟨40, 30, 10, 200, 118/10, 53/10⟩
  else if cat = "619" then some ⟨350, 300, 50, 2000, 205/10, 98/10⟩
  else if cat = "888" then some ⟨120, 100, 20, 800, 137/10, 61/10⟩
  else if cat = "26395" then some ⟨200, 150, 50, 1000, 162/10, 74/10⟩
  else if cat = "14308" then some ⟨250, 200, 50, 1500, 223/10, 105/10⟩
  else if cat = "550" then some ⟨180, 200, 20, 2000, 258/10, 123/10⟩
  else if cat = "2984" then some ⟨220, 250, 30, 3000, 196/10, 89/10⟩
  else if cat = "1249" then some ⟨150, 120, 30, 800, 174/10, 78/10⟩
  else if cat = "220" then some ⟨280, 220, 50, 2500, 159/10, 72/10⟩
  else none

/-- `ReplayBuffer`: a `deque(maxlen=capacity)` of experiences, kept in FIFO
order (oldest first). -/
structure ReplayBuffer (α : Type) where
  capacity : ℕ
  buffer : List α
deriving DecidableEq, Repr

namespace ReplayBuffer

/-- `ReplayBuffer(capacity)`: empty deque with the given bound. -/
def initBuf (α : Type) (capacity : ℕ) : ReplayBuffer α :=
  ⟨capacity, []⟩

/-- `add`: append on the right; a full `deque(maxlen=capacity)` evicts from
the left. -/
def add {α : Type} (b : ReplayBuffer α) (e : α) : ReplayBuffer α :=
  let l := b.buffer ++ [e]
  ⟨b.capacity, l.drop (l.length - b.capacity)⟩

/-- Insert a whole list of experiences in order. -/
def addAll {α : Type} (b : ReplayBuffer α) (es : List α) : ReplayBuffer α :=
  es.foldl add b

/-- `__len__`. -/
def size {α : Type} (b : ReplayBuffer α) : ℕ :=
  b.buffer.length

/-- `random.sample(population, k)` (`k ≤ len(population)`): draw `k` items
without replacement; `f` gives the RNG's index choice at each draw. -/
def pySampleAux {α : Type} : List α → ℕ → (ℕ → ℕ) → ℕ → List α
  | _, 0, _, _ => []
  | pool, Nat.succ k, f, t =>
    if h : 0 < pool.length then
      let i : Fin pool.length := ⟨f t % pool.length, Nat.mod_lt _ h⟩
      pool.get i :: pySampleAux (pool.eraseIdx i) k f (t + 1)
    else []

/-- `sample(batch_size)`: `random.sample(buffer, min(len(buffer), batch_size))`. -/
def sample {α : Type} (b : ReplayBuffer α) (batch_size : ℕ) (f : ℕ → ℕ) :
    List α :=
  pySampleAux b.buffer (min b.buffer.length batch_size) f 0

end ReplayBuffer

/-- `torch.argmax` over a CPU tensor given as a list: index of the first
maximal entry (0 on an empty list). -/
def torchArgmax (l : List ℚ) : ℕ :=
  match l with
  | [] => 0
  | x :: xs => go xs 0 x 1
where
  /-- Scan keeping the first index attaining the running maximum. -/
  go : List ℚ → ℕ → ℚ → ℕ → ℕ
  | [], bi, _, _ => bi
  | x :: xs, bi, bv, i => if x > bv then go xs i x (i + 1) else go xs bi bv (i + 1)

namespace DQNAgent

/-- `act(state, eval_mode)` given the online network's action values for the
state. `draw` is the `random.random()` outcome and `choice` the outcome of
`random.choice(range(action_size))`. -/
def act (action_values : List ℚ) (epsilon : ℚ) (eval_mode : Bool)
    (draw : ℚ) (choice : ℕ) : ℕ :=
  if eval_mode then torchArgmax action_values
  else if draw > epsilon then torchArgmax action_values
  else choice

end DQNAgent

/-- The live agent's fields relevant to checkpointing; network parameter
blobs and optimizer state are opaque values of types `α` and `β`. -/
structure DQNAgentState (α β : Type) where
  state_size : ℕ
  action_size : ℕ
  hidden_size : ℕ
  qnetwork_local : α
  qnetwork_target : α
  optimizer_state : β
  epsilon : ℚ
deriving DecidableEq, Repr

/-- A saved checkpoint: both parameter blobs, optimizer state, epsilon and
the declared dimensions (what `save` writes). -/
structure Checkpoint (α β : Type) where
  qnetwork_local_state_dict : α
  qnetwork_target_state_dict : α
  optimizer_state_dict : β
  epsilon : ℚ
  state_size : ℕ
  action_size : ℕ
  hidden_size : ℕ
deriving DecidableEq, Repr

namespace DQNAgent

/-- `load(filepath)` once the checkpoint is read: the guard compares only
`state_size` and `action_size`; on mismatch it logs and returns the agent
unchanged. Otherwise it applies the state dicts — and when only
`hidden_size` differs, `load_state_dict` raises a size-mismatch
`RuntimeError` (modelled as an error result). -/
def load {α β : Type} (agent : DQNAgentState α β) (cp : Checkpoint α β) :
    Except String (DQNAgentState α β) :=
  if cp.state_size ≠ agent.state_size ∨ cp.action_size ≠ agent.action_size then
    .ok agent
  else if cp.hidden_size ≠ agent.hidden_size then
    .error "RuntimeError: size mismatch in load_state_dict"
  else
    .ok { agent with
          qnetwork_local := cp.qnetwork_local_state_dict,
          qnetwork_target := cp.qnetwork_target_state_dict,
          optimizer_state := cp.optimizer_state_dict,
          epsilon := cp.epsilon }

end DQNAgent

/-- `np.mean` over a score list. -/
def npMean (l : List ℚ) : ℚ :=
  l.sum / (l.length : ℚ)

/-- `np.max` over a score list. -/
def npMax (l : List ℚ) : ℚ :=
  l.foldl max (l.headD 0)

/-- `np.min` over a score list. -/
def npMin (l : List ℚ) : ℚ :=
  l.foldl min (l.headD 0)

/-- The evaluation statistics dictionary built by `DQNAgent.evaluate`. -/
structure EvalStats where
  episodes : ℕ
  avg_score : ℚ
  max_score : ℚ
  min_score : ℚ
  evaluation_time : ℚ
deriving DecidableEq, Repr

/-- The keyword parameters `MarketEnvironment.__init__` declares
(source line 17: only `config_path`). -/
def marketEnvInitKeywordParams : List String :=
  ["config_path"]

/-- The keyword arguments `DQNAgent.evaluate` passes when constructing its
environment (source line 475: `config_path` and `evaluation`). -/
def evaluateEnvCallKeywordArgs : List String :=
  ["config_path", "evaluation"]

/-- A Python call binds successfully only if every passed keyword argument
is a declared parameter; otherwise it raises a `TypeError`. -/
def pyCallAcceptsKwargs (accepted passed : List String) : Bool :=
  passed.all fun k => accepted.contains k

namespace DQNAgent

/-- One evaluation episode after `reset`: pick `argmax` actions
(`eval_mode=True`), step the environment, accumulate the score, stop on
`done`; no learning updates happen. Returns the episode score and the new
draw-stream position. `fuel` bounds the recursion (`done` is forced once the
step counter reaches `max_steps`, so `max_steps + 1` fuel suffices). -/
def evalEpisode (qfun : List (String × ℚ) → List ℚ) (expFn : ℚ → ℚ)
    (stream : ℕ → ℚ) (nowAt : ℕ → WallClock) :
    ℕ → MarketEnvironment → Item → List (String × ℚ) → ℚ → ℕ → ℚ × ℕ
  | 0, _, _, _, score, pos => (score, pos)
  | fuel + 1, env, item, state, score, pos =>
    let action : ℤ := (act (qfun state) 0 true 0 0 : ℕ)
    let (env', out) :=
      env.step_core item expFn (stream pos) (stream (pos + 1)) (nowAt pos) action
    let score' := score + out.2.1
    if out.2.2.1 then (score', pos + 2)
    else
      match env'.current_item with
      | some item' => evalEpisode qfun expFn stream nowAt fuel env' item' out.1 score' (pos + 2)
      | none => (score', pos + 2)

/-- The per-episode score list of the evaluation loop; `itemAt` supplies the
randomly generated item of each episode (`reset()` with no argument). -/
def evalScores (qfun : List (String × ℚ) → List ℚ) (expFn : ℚ → ℚ)
    (stream : ℕ → ℚ) (nowAt : ℕ → WallClock) (itemAt : ℕ → Item)
    (env : MarketEnvironment) : ℕ → ℕ → ℕ → List ℚ
  | 0, _, _ => []
  | Nat.succ k, pos, epIdx =>
    let (env1, state0) := env.reset (itemAt epIdx) (nowAt pos)
    let (score, pos') :=
      evalEpisode qfun expFn stream nowAt (env1.max_steps + 1) env1 (itemAt epIdx)
        state0 0 pos
    score :: evalScores qfun expFn stream nowAt itemAt env k pos' (epIdx + 1)

/-- `evaluate(episodes)`: first constructs the evaluation environment via
`MarketEnvironment(config_path=self.config_path, evaluation=True)`, then
runs the episode loop with `eval_mode=True` and aggregates
avg/min/max score and the wall-clock evaluation time. -/
def evaluate (qfun : List (String × ℚ) → List ℚ) (expFn : ℚ → ℚ)
    (stream : ℕ → ℚ) (nowAt : ℕ → WallClock) (itemAt : ℕ → Item)
    (envFromConfig : MarketEnvironment) (episodes : ℕ) (wallTime : ℚ) :
    Except String EvalStats :=
  if pyCallAcceptsKwargs marketEnvInitKeywordParams evaluateEnvCallKeywordArgs then
    let scores := evalScores qfun expFn stream nowAt itemAt envFromConfig episodes 0 0
    .ok { episodes := episodes, avg_score := npMean scores,
          max_score := npMax scores, min_score := npMin scores,
          evaluation_time := wallTime }
  else
    .error "TypeError: MarketEnvironment.__init__ got an unexpected keyword argument evaluation"

end DQNAgent

/-- The claim's wording of the normalized profit (refinement comparison):
`(new_price - 0.7 * original_price) / original_price`, `0` when
`original_price` is `0`. -/
def specNormalizedProfit (original_price new_price : ℚ) : ℚ :=
  if original_price = 0 then 0
  else (new_price - (7/10) * original_price) / original_price

/-- The claim's wording of the time penalty (refinement comparison):
`expected_days / avg_days_to_sell_for_category`, with divisor `10.0` when
the category average is `0` or missing. -/
def specTimePenalty (env : MarketEnvironment) (cat : String)
    (expected_days : ℚ) : ℚ :=
  match env.category_stats cat with
  | none => expected_days / 10
  | some s =>
    if s.avg_days_to_sell = 0 then expected_days / 10
    else expected_days / s.avg_days_to_sell

/-- An environment carrying the default configuration values of `__init__`
and the built-in mock statistics table. -/
def defaultMarketEnv : MarketEnvironment :=
  MarketEnvironment.init (7/10) (3/10) (1/10) (-3/10) (3/10) 10 (7/10) (3/10)
    30 mockCategoryStats

/-- A concrete laptop item used by closed instantiations. -/
def laptopItem : Item :=
  { price := 800, condition := "Good", category_id := "9355" }

/-- The default environment after `reset(laptopItem)`. -/
def defaultEnvWithItem : MarketEnvironment :=
  { defaultMarketEnv with current_item := some laptopItem }

/-- C1: the claim says the condition score maps New to 1.0, LikeNew to 0.9,
VeryGood to 0.8, Good to 0.6, Acceptable to 0.4, ForParts/NotWorking to 0.1
and anything unrecognized to 0.5. The code checks `"new" in condition`
before `"like new" in condition`, so the string "Like New" scores 1.0 and
the 0.9 branch is unreachable dead code — the code contradicts its own
branch structure, the table of the claim being the evident intent. All
other enum values match the claim. -/
theorem C1_condition_score_at_failing_input :
    MarketEnvironment.condition_to_score "Like New" = 1 ∧
    MarketEnvironment.condition_to_score "Like New" ≠ 9/10 ∧
    MarketEnvironment.condition_to_score "New" = 1 ∧
    MarketEnvironment.condition_to_score "Very Good" = 8/10 ∧
    MarketEnvironment.condition_to_score "Good" = 6/10 ∧
    MarketEnvironment.condition_to_score "Acceptable" = 4/10 ∧
    MarketEnvironment.condition_to_score "For parts or not working" = 1/10 ∧
    MarketEnvironment.condition_to_score "Used" = 5/10 := by
  refine ⟨rfl, ?_, rfl, rfl, rfl, rfl, rfl, rfl⟩
  have h : MarketEnvironment.condition_to_score "Like New" = 1 := rfl
  rw [h]
  norm_num

/-- C2: the claim says `evaluate(episodes)` runs the evaluation episode loop
and returns aggregate statistics. In the code, `evaluate` first constructs
`MarketEnvironment(config_path=self.config_path, evaluation=True)`, but
`MarketEnvironment.__init__` declares no `evaluation` parameter, so every
call raises a `TypeError` before a single episode runs. -/
theorem C2_evaluate_raises_type_error (qfun : List (String × ℚ) → List ℚ)
    (expFn : ℚ → ℚ) (stream : ℕ → ℚ) (nowAt : ℕ → WallClock)
    (itemAt : ℕ → Item) (envFromConfig : MarketEnvironment) (episodes : ℕ)
    (wallTime : ℚ) :
    DQNAgent.evaluate qfun expFn stream nowAt itemAt envFromConfig episodes
        wallTime =
      Except.error
        "TypeError: MarketEnvironment.__init__ got an unexpected keyword argument evaluation" :=
  rfl

/-- C10: on a freshly constructed environment (`reset` never called),
`current_item` is `None`; `step` raises a subscript `TypeError` on the
`None` item, and `get_state_space_size` / `get_state_feature_names` raise
an `AttributeError` from `_extract_item_features`, so all three require a
prior `reset` as an unstated precondition. -/
theorem C10_fresh_env_operations_raise (ps ts mv lo hi : ℚ) (steps : ℕ)
    (pw tw : ℚ) (ms : ℕ) (stats : String → Option CategoryStats)
    (expFn : ℚ → ℚ) (u1 u2 : ℚ) (now : WallClock) (a : ℤ) :
    (MarketEnvironment.init ps ts mv lo hi steps pw tw ms stats).current_item
        = none ∧
    (MarketEnvironment.init ps ts mv lo hi steps pw tw ms stats).stepPy expFn
        u1 u2 now a = Except.error PyErr.typeError ∧
    (MarketEnvironment.init ps ts mv lo hi steps pw tw ms
        stats).get_state_space_size now = Except.error PyErr.attributeError ∧
    (MarketEnvironment.init ps ts mv lo hi steps pw tw ms
        stats).get_state_feature_names now = Except.error PyErr.attributeError :=
  ⟨rfl, rfl, rfl, rfl⟩

/-- A live agent with dimensions (29, 10, 128); network and optimizer blobs
are opaque tags. -/
def agentC3 : DQNAgentState ℕ ℕ :=
  { state_size := 29, action_size := 10, hidden_size := 128,
    qnetwork_local := 0, qnetwork_target := 1, optimizer_state := 2,
    epsilon := 1/2 }

/-- A checkpoint agreeing with `agentC3` on state/action sizes but declaring
hidden size 64. -/
def ckptHidden64 : Checkpoint ℕ ℕ :=
  { qnetwork_local_state_dict := 3, qnetwork_target_state_dict := 4,
    optimizer_state_dict := 5, epsilon := 3/4,
    state_size := 29, action_size := 10, hidden_size := 64 }

/-- A checkpoint declaring state size 30 against `agentC3`'s 29. -/
def ckptState30 : Checkpoint ℕ ℕ :=
  { qnetwork_local_state_dict := 6, qnetwork_target_state_dict := 7,
    optimizer_state_dict := 8, epsilon := 3/4,
    state_size := 30, action_size := 10, hidden_size := 128 }

/-- C3 counterexample: the claim quantifies over every checkpoint whose
declared `(state_size, action_size, hidden_size)` differ from the agent's,
but the guard in `load` compares only `state_size` and `action_size`. A
checkpoint differing only in `hidden_size` has differing declared
dimensions, yet is not rejected: `load` proceeds into `load_state_dict`,
which raises a size-mismatch error — not the claimed warn-and-no-op. -/
theorem C3_counterexample_hidden_size_not_guarded :
    (ckptHidden64.state_size, ckptHidden64.action_size,
        ckptHidden64.hidden_size) ≠
      (agentC3.state_size, agentC3.action_size, agentC3.hidden_size) ∧
    DQNAgent.load agentC3 ckptHidden64 =
      Except.error "RuntimeError: size mismatch in load_state_dict" := by
  exact ⟨by decide, rfl⟩

/-- C3 amended: `load` logs a warning and is a complete no-op — retaining
the agent's parameters, optimizer state and epsilon, never raising — exactly
when the checkpoint's declared `state_size` or `action_size` differs from
the live agent's; `hidden_size` is not validated by the guard. -/
theorem C3_load_guard_amended {α β : Type} (agent : DQNAgentState α β)
    (cp : Checkpoint α β)
    (h : cp.state_size ≠ agent.state_size ∨
      cp.action_size ≠ agent.action_size) :
    DQNAgent.load agent cp = Except.ok agent := by
  unfold DQNAgent.load
  rw [if_pos h]

/-- Witness for C3: the amended load theorem applied to a checkpoint with a
mismatched state size. -/
theorem C3_load_guard_amended_witness :
    (ckptState30.state_size ≠ agentC3.state_size ∨
      ckptState30.action_size ≠ agentC3.action_size) ∧
    DQNAgent.load agentC3 ckptState30 = Except.ok agentC3 :=
  ⟨Or.inl (by decide),
   C3_load_guard_amended agentC3 ckptState30 (Or.inl (by decide))⟩

/-- C6 counterexample: the claim says that with `epsilon = 0.0` and
`eval_mode=False`, `act` always returns the argmax. The ε-greedy test is
`random.random() > self.epsilon`, a strict comparison; `random.random()`
ranges over `[0, 1)` and can return exactly `0.0`, in which case `0.0 > 0.0`
fails and the random branch runs. Here the random choice is action 7 while
the argmax of the action values `[0, 0, 1]` is 2. -/
theorem C6_counterexample_zero_draw :
    DQNAgent.act [0, 0, 1] 0 false 0 7 = 7 ∧
    torchArgmax [0, 0, 1] = 2 ∧
    (0:ℚ) ≤ 0 ∧ (0:ℚ) < 1 ∧ 7 < 10 := by
  refine ⟨?_, ?_, le_refl 0, by norm_num, by norm_num⟩
  · simp [DQNAgent.act]
  · norm_num [torchArgmax, torchArgmax.go]

/-- C6 amended: with `eval_mode=True`, `act` returns the argmax of the
online network's action values; with `epsilon = 0.0` and `eval_mode=False`
it returns the argmax for every nonzero draw of `random.random()` (at a
draw of exactly `0.0` the random branch runs instead); with `epsilon = 1.0`
it always returns the uniformly random action from the action space. -/
theorem C6_act_amended (q : List ℚ) (actionSize : ℕ) (eps draw : ℚ)
    (choice : ℕ) (h0 : 0 ≤ draw) (h1 : draw < 1) (hc : choice < actionSize) :
    DQNAgent.act q eps true draw choice = torchArgmax q ∧
    (eps = 0 → draw ≠ 0 →
      DQNAgent.act q eps false draw choice = torchArgmax q) ∧
    (eps = 1 →
      DQNAgent.act q eps false draw choice = choice ∧ choice < actionSize) := by
  refine ⟨rfl, ?_, ?_⟩
  · intro he hd
    subst he
    have hpos : draw > 0 := lt_of_le_of_ne h0 (Ne.symm hd)
    simp [DQNAgent.act, hpos]
  · intro he
    subst he
    refine ⟨?_, hc⟩
    have hng : ¬ draw > 1 := not_lt.mpr h1.le
    simp [DQNAgent.act, hng]

/-- C4 counterexample: with the same category statistics, the same item and
the same (seed-determined) draw stream, two runs of the same `reset()`
already differ when they happen at different wall-clock times, because
`_create_state` includes `_extract_time_features` read from
`datetime.now()`: resetting on a Monday and on a Saturday gives different
`is_weekend` features, so the `(state, reward, done)` sequence is not
bit-reproducible from the seed alone. -/
theorem C4_counterexample_wall_clock :
    (defaultMarketEnv.reset laptopItem ⟨0, 1⟩).2 ≠
      (defaultMarketEnv.reset laptopItem ⟨5, 1⟩).2 := by
  intro h
  have h1 : ((defaultMarketEnv.reset laptopItem ⟨0, 1⟩).2.lookup "is_weekend")
      = some 0 := rfl
  have h2 : ((defaultMarketEnv.reset laptopItem ⟨5, 1⟩).2.lookup "is_weekend")
      = some 1 := rfl
  rw [h, h2] at h1
  have h3 : (1 : ℚ) = 0 := Option.some.inj h1
  norm_num at h3

/-- C4 amended: determinism holds once the wall clock is also fixed — for a
fixed item, category statistics and per-step wall-clock readings, any two
draw streams that agree on the draws the run consumes (two per step) produce
identical `(state, reward, done)` sequences; in particular two runs under
the same seed and the same clock are bit-identical. -/
theorem C4_determinism_amended (env : MarketEnvironment) (item : Item)
    (expFn : ℚ → ℚ) (s1 s2 : ℕ → ℚ) (nowAt : ℕ → WallClock) (pos : ℕ)
    (actions : List ℤ)
    (h : ∀ i, i < 2 * actions.length → s1 (pos + i) = s2 (pos + i)) :
    env.run_steps item expFn s1 nowAt pos actions =
      env.run_steps item expFn s2 nowAt pos actions := by
  induction actions generalizing env item pos with
  | nil => rfl
  | cons a as ih =>
    have hlen : (a :: as).length = as.length + 1 := rfl
    have h0 : s1 pos = s2 pos := by
      have := h 0 (by rw [hlen]; omega)
      simpa using this
    have h1 : s1 (pos + 1) = s2 (pos + 1) := h 1 (by rw [hlen]; omega)
    simp only [MarketEnvironment.run_steps]
    rw [h0, h1]
    congr 1
    exact ih _ _ _ fun i hi => by
      have h2 := h (2 + i) (by rw [hlen]; omega)
      rwa [show pos + (2 + i) = pos + 2 + i by omega] at h2

/-- Witness for C4: the amended determinism theorem applied to two concrete
streams that agree on the two draws a one-step run consumes but differ
afterwards. -/
theorem C4_determinism_amended_witness :
    (∀ i, i < 2 * ([3] : List ℤ).length →
      (fun _ : ℕ => (0:ℚ)) (0 + i) =
        (fun j : ℕ => if j < 2 then (0:ℚ) else 1) (0 + i)) ∧
    defaultMarketEnv.run_steps laptopItem (fun x => x) (fun _ => 0)
        (fun _ => ⟨0, 1⟩) 0 [3] =
      defaultMarketEnv.run_steps laptopItem (fun x => x)
        (fun j => if j < 2 then 0 else 1) (fun _ => ⟨0, 1⟩) 0 [3] := by
  have hagree : ∀ i, i < 2 * ([3] : List ℤ).length →
      (fun _ : ℕ => (0:ℚ)) (0 + i) =
        (fun j : ℕ => if j < 2 then (0:ℚ) else 1) (0 + i) := by
    intro i hi
    simp only [List.length_cons, List.length_nil] at hi
    simp only [Nat.zero_add]
    rw [if_pos (by omega)]
  exact ⟨hagree,
    C4_determinism_amended defaultMarketEnv laptopItem (fun x => x)
      (fun _ => 0) (fun j => if j < 2 then 0 else 1) (fun _ => ⟨0, 1⟩) 0 [3]
      hagree⟩

/-- C7: with adjustment range `[-0.3, 0.3]` and 10 steps,
`_action_to_adjustment` maps action 0 to -0.3 and action 9 to 0.3, is
strictly increasing on the valid index range, and clamps any integer action
outside `[0, action_space_size)` into range instead of rejecting it. -/
theorem C7_action_discretization (env : MarketEnvironment)
    (hlo : env.price_adjustment_lo = -3/10)
    (hhi : env.price_adjustment_hi = 3/10)
    (hsteps : env.price_adjustment_steps = 10) :
    env.action_to_adjustment 0 = -3/10 ∧
    env.action_to_adjustment 9 = 3/10 ∧
    (∀ i j : ℤ, 0 ≤ i → i < j → j ≤ 9 →
      env.action_to_adjustment i < env.action_to_adjustment j) ∧
    (∀ a : ℤ, a < 0 →
      env.action_to_adjustment a = env.action_to_adjustment 0) ∧
    (∀ a : ℤ, 10 ≤ a →
      env.action_to_adjustment a = env.action_to_adjustment 9) := by
  have hstep : env.price_step = 1/15 := by
    unfold MarketEnvironment.price_step
    rw [hlo, hhi, hsteps]
    norm_num
  have hadj : ∀ a : ℤ, env.action_to_adjustment a =
      -3/10 + ((max 0 (min a 9) : ℤ) : ℚ) * (1/15) := by
    intro a
    unfold MarketEnvironment.action_to_adjustment MarketEnvironment.action_space_size
    rw [hlo, hstep, hsteps]
    norm_num
  refine ⟨?_, ?_, ?_, ?_, ?_⟩
  · rw [hadj]
    norm_num
  · rw [hadj]
    norm_num
  · intro i j hi hij hj9
    rw [hadj, hadj]
    have hmi : max 0 (min i 9) = i := by omega
    have hmj : max 0 (min j 9) = j := by omega
    rw [hmi, hmj]
    have hc : (i:ℚ) < (j:ℚ) := by exact_mod_cast hij
    have hm := mul_lt_mul_of_pos_right hc (show (0:ℚ) < 1/15 by norm_num)
    linarith
  · intro a ha
    rw [hadj, hadj]
    have hcl : max 0 (min a 9) = 0 := by omega
    rw [hcl]
    norm_num
  · intro a ha
    rw [hadj, hadj]
    have hcl : max 0 (min a 9) = 9 := by omega
    rw [hcl]
    norm_num

/-- Witness for C7: the discretization theorem applied to the default
environment configuration. -/
theorem C7_action_discretization_witness :
    defaultMarketEnv.price_adjustment_lo = -3/10 ∧
    defaultMarketEnv.price_adjustment_hi = 3/10 ∧
    defaultMarketEnv.price_adjustment_steps = 10 ∧
    (defaultMarketEnv.action_to_adjustment 0 = -3/10 ∧
     defaultMarketEnv.action_to_adjustment 9 = 3/10 ∧
     (∀ i j : ℤ, 0 ≤ i → i < j → j ≤ 9 →
       defaultMarketEnv.action_to_adjustment i <
         defaultMarketEnv.action_to_adjustment j) ∧
     (∀ a : ℤ, a < 0 →
       defaultMarketEnv.action_to_adjustment a =
         defaultMarketEnv.action_to_adjustment 0) ∧
     (∀ a : ℤ, 10 ≤ a →
       defaultMarketEnv.action_to_adjustment a =
         defaultMarketEnv.action_to_adjustment 9)) :=
  ⟨rfl, rfl, rfl, C7_action_discretization defaultMarketEnv rfl rfl rfl⟩

/-- C5: the reward equals
`normalized_profit * sale_probability * profit_weight - time_penalty * time_weight`
with `normalized_profit = (new_price - 0.7*original_price)/original_price`
(0 when the original price is 0) and
`time_penalty = expected_days / category_avg_days` (divisor 10.0 when the
category average is 0 or missing); with `profit_weight=1, time_weight=0`
the reward is exactly `normalized_profit * sale_probability`. Prices and
recorded day averages are nonnegative. -/
theorem C5_reward_formula (env : MarketEnvironment) (op np sp ed : ℚ)
    (cat : String) (hop : 0 ≤ op)
    (hstats : ∀ s, env.category_stats cat = some s →
      0 ≤ s.avg_days_to_sell) :
    env.calculate_reward op np sp ed cat =
      specNormalizedProfit op np * sp * env.profit_weight -
        specTimePenalty env cat ed * env.time_weight ∧
    (env.profit_weight = 1 → env.time_weight = 0 →
      env.calculate_reward op np sp ed cat =
        specNormalizedProfit op np * sp) := by
  have hprof : (if op > 0 then (np - op * (7/10)) / op else 0) =
      specNormalizedProfit op np := by
    unfold specNormalizedProfit
    rcases eq_or_lt_of_le hop with h | h
    · rw [← h]
      norm_num
    · rw [if_pos h, if_neg (ne_of_gt h)]
      ring_nf
  have hpen : (if env.stat_avg_days cat > 0 then ed / env.stat_avg_days cat
      else ed / 10) = specTimePenalty env cat ed := by
    rcases hcs : env.category_stats cat with _ | s
    · simp only [specTimePenalty, MarketEnvironment.stat_avg_days, hcs,
        Option.map_none', Option.getD_none]
      norm_num
    · have hs := hstats s hcs
      simp only [specTimePenalty, MarketEnvironment.stat_avg_days, hcs,
        Option.map_some', Option.getD_some]
      rcases eq_or_lt_of_le hs with h | h
      · rw [← h]
        norm_num
      · rw [if_pos h, if_neg (ne_of_gt h)]
  have hmain : env.calculate_reward op np sp ed cat =
      specNormalizedProfit op np * sp * env.profit_weight -
        specTimePenalty env cat ed * env.time_weight := by
    simp only [MarketEnvironment.calculate_reward]
    rw [hprof, hpen]
    ring
  refine ⟨hmain, fun h1 h2 => ?_⟩
  rw [hmain, h1, h2]
  ring

/-- Witness for C5: the reward-formula theorem applied to the default
environment and a concrete laptop transition. -/
theorem C5_reward_formula_witness :
    (0:ℚ) ≤ 800 ∧
    (defaultMarketEnv.calculate_reward 800 900 (1/2) 12 "9355" =
      specNormalizedProfit 800 900 * (1/2) * defaultMarketEnv.profit_weight -
        specTimePenalty defaultMarketEnv "9355" 12 *
          defaultMarketEnv.time_weight ∧
     (defaultMarketEnv.profit_weight = 1 → defaultMarketEnv.time_weight = 0 →
       defaultMarketEnv.calculate_reward 800 900 (1/2) 12 "9355" =
         specNormalizedProfit 800 900 * (1/2))) :=
  ⟨by norm_num,
   C5_reward_formula defaultMarketEnv 800 900 (1/2) 12 "9355" (by norm_num)
     (by
       intro s hs
       rw [show defaultMarketEnv.category_stats "9355" =
         some ⟨800, 300, 200, 2000, 125/10, 52/10⟩ from rfl] at hs
       injection hs with h
       rw [← h]
       norm_num)⟩

/-- Length law of the without-replacement sampler: it returns exactly
`min k (pool length)` elements. -/
theorem replay_pySampleAux_length {α : Type} :
    ∀ (k : ℕ) (pool : List α) (f : ℕ → ℕ) (t : ℕ),
      (ReplayBuffer.pySampleAux pool k f t).length = min k pool.length := by
  intro k
  induction k with
  | zero =>
    intro pool f t
    simp [ReplayBuffer.pySampleAux]
  | succ k ih =>
    intro pool f t
    by_cases h : 0 < pool.length
    · simp only [ReplayBuffer.pySampleAux, dif_pos h, List.length_cons, ih,
        List.length_eraseIdx]
      have hi : f t % pool.length < pool.length := Nat.mod_lt _ h
      rw [if_pos hi]
      omega
    · simp only [ReplayBuffer.pySampleAux, dif_neg h, List.length_nil]
      omega

/-- Every sampled element comes from the pool. -/
theorem replay_pySampleAux_subset {α : Type} :
    ∀ (k : ℕ) (pool : List α) (f : ℕ → ℕ) (t : ℕ) (x : α),
      x ∈ ReplayBuffer.pySampleAux pool k f t → x ∈ pool := by
  intro k
  induction k with
  | zero =>
    intro pool f t x hx
    simp [ReplayBuffer.pySampleAux] at hx
  | succ k ih =>
    intro pool f t x hx
    by_cases h : 0 < pool.length
    · simp only [ReplayBuffer.pySampleAux, dif_pos h] at hx
      rcases List.mem_cons.mp hx with h1 | h2
      · rw [h1]
        exact pool.get_mem _ _
      · exact (List.eraseIdx_sublist pool _).subset (ih _ _ _ _ h2)
    · simp [ReplayBuffer.pySampleAux, dif_neg h] at hx

/-- On a duplicate-free pool the sampler picks pairwise distinct positions,
so its output is duplicate-free. -/
theorem replay_pySampleAux_nodup {α : Type} [DecidableEq α] :
    ∀ (k : ℕ) (pool : List α) (f : ℕ → ℕ) (t : ℕ), pool.Nodup →
      (ReplayBuffer.pySampleAux pool k f t).Nodup := by
  intro k
  induction k with
  | zero =>
    intro pool f t hnd
    simp [ReplayBuffer.pySampleAux]
  | succ k ih =>
    intro pool f t hnd
    by_cases h : 0 < pool.length
    · simp only [ReplayBuffer.pySampleAux, dif_pos h]
      refine List.nodup_cons.mpr
        ⟨?_, ih _ _ _ (hnd.sublist (List.eraseIdx_sublist pool _))⟩
      intro hmem
      have hmem' := replay_pySampleAux_subset _ _ _ _ _ hmem
      have herase : pool.erase (pool.get ⟨f t % pool.length, Nat.mod_lt _ h⟩) =
          pool.eraseIdx (f t % pool.length) :=
        List.Nodup.erase_get hnd ⟨f t % pool.length, Nat.mod_lt _ h⟩
      rw [← herase] at hmem'
      exact hnd.not_mem_erase hmem'
    · simp [ReplayBuffer.pySampleAux, dif_neg h]

/-- Content of the buffer after a sequence of `add` calls: the concatenated
history with everything before the last `capacity` entries evicted. -/
theorem replay_addAll_buffer {α : Type} (cap : ℕ) :
    ∀ (l : List α) (b : ReplayBuffer α), b.capacity = cap →
      b.buffer.length ≤ cap →
      (b.addAll l).buffer =
        (b.buffer ++ l).drop (b.buffer.length + l.length - cap) ∧
      (b.addAll l).capacity = cap := by
  intro l
  induction l with
  | nil =>
    intro b hc hlen
    have h0 : b.buffer.length + ([] : List α).length - cap = 0 := by
      simp only [List.length_nil]
      omega
    rw [h0]
    exact ⟨by simp [ReplayBuffer.addAll], by simp [ReplayBuffer.addAll, hc]⟩
  | cons e es ih =>
    intro b hc hlen
    have hadd_cap : (b.add e).capacity = cap := by
      simp [ReplayBuffer.add, hc]
    have hadd_buf : (b.add e).buffer =
        (b.buffer ++ [e]).drop (b.buffer.length + 1 - cap) := by
      simp [ReplayBuffer.add, hc]
    have hadd_len : (b.add e).buffer.length =
        b.buffer.length + 1 - (b.buffer.length + 1 - cap) := by
      rw [hadd_buf]
      simp
    obtain ⟨ih1, ih2⟩ := ih (b.add e) hadd_cap (by omega)
    refine ⟨?_, ih2⟩
    show ((b.add e).addAll es).buffer = _
    rw [ih1, hadd_buf]
    rw [← List.drop_append_of_le_length
      (by simp only [List.length_append, List.length_cons, List.length_nil]; omega)]
    rw [List.drop_drop]
    have heq : (b.buffer ++ [e]) ++ es = b.buffer ++ e :: es := by simp
    rw [heq]
    congr 1
    simp only [List.length_drop, List.length_append, List.length_cons,
      List.length_nil]
    omega

/-- C8: after `capacity + k` insertions (`k > 0`) the buffer holds exactly
`capacity` entries — precisely the last `capacity` insertions in FIFO
order — and `sample(batch)` returns `min(batch, len(buffer))` transitions
drawn without replacement, so uniquely tagged transitions stay
duplicate-free within one sample call. -/
theorem C8_replay_buffer_fifo_and_sample {α : Type} [DecidableEq α]
    (cap k batch : ℕ) (l : List α) (b : ReplayBuffer α) (f : ℕ → ℕ)
    (hcap : 0 < cap) (hk : 0 < k) (hlen : l.length = cap + k) :
    ((ReplayBuffer.initBuf α cap).addAll l).size = cap ∧
    ((ReplayBuffer.initBuf α cap).addAll l).buffer = l.drop k ∧
    (b.sample batch f).length = min batch b.size ∧
    (b.buffer.Nodup → (b.sample batch f).Nodup) := by
  obtain ⟨h1, _⟩ := replay_addAll_buffer cap l (ReplayBuffer.initBuf α cap)
    rfl (by simp [ReplayBuffer.initBuf])
  have hbuf : ((ReplayBuffer.initBuf α cap).addAll l).buffer = l.drop k := by
    rw [h1]
    show (([] : List α) ++ l).drop (0 + l.length - cap) = l.drop k
    rw [List.nil_append]
    congr 1
    omega
  refine ⟨?_, hbuf, ?_, ?_⟩
  · show ((ReplayBuffer.initBuf α cap).addAll l).buffer.length = cap
    rw [hbuf, List.length_drop]
    omega
  · show (ReplayBuffer.pySampleAux b.buffer (min b.buffer.length batch) f
      0).length = min batch b.buffer.length
    rw [replay_pySampleAux_length]
    omega
  · intro hnd
    exact replay_pySampleAux_nodup _ _ _ _ hnd

/-- Witness for C8: the replay-buffer theorem applied to capacity 2, three
tagged insertions, and a sample of batch size 5 from a two-element buffer. -/
theorem C8_replay_buffer_witness :
    0 < 2 ∧ 0 < 1 ∧ ([10, 20, 30] : List ℕ).length = 2 + 1 ∧
    (((ReplayBuffer.initBuf ℕ 2).addAll [10, 20, 30]).size = 2 ∧
     ((ReplayBuffer.initBuf ℕ 2).addAll [10, 20, 30]).buffer =
       ([10, 20, 30] : List ℕ).drop 1 ∧
     ((⟨2, [1, 2]⟩ : ReplayBuffer ℕ).sample 5 id).length =
       min 5 (⟨2, [1, 2]⟩ : ReplayBuffer ℕ).size ∧
     (([1, 2] : List ℕ).Nodup →
       ((⟨2, [1, 2]⟩ : ReplayBuffer ℕ).sample 5 id).Nodup)) :=
  ⟨by norm_num, by norm_num, by decide,
   C8_replay_buffer_fifo_and_sample 2 1 5 [10, 20, 30] ⟨2, [1, 2]⟩ id
     (by norm_num) (by norm_num) (by decide)⟩

/-- Witness for C6: the amended act theorem applied to concrete action
values, a draw of 1/2 and random choice 7 out of 10 actions. -/
theorem C6_act_amended_witness :
    (0:ℚ) ≤ 1/2 ∧ (1/2:ℚ) < 1 ∧ 7 < 10 ∧
    (DQNAgent.act [0, 0, 1] 0 true (1/2) 7 = torchArgmax [0, 0, 1] ∧
     ((0:ℚ) = 0 → (1/2:ℚ) ≠ 0 →
       DQNAgent.act [0, 0, 1] 0 false (1/2) 7 = torchArgmax [0, 0, 1]) ∧
     ((0:ℚ) = 1 →
       DQNAgent.act [0, 0, 1] 0 false (1/2) 7 = 7 ∧ 7 < 10)) :=
  ⟨by norm_num, by norm_num, by norm_num,
   C6_act_amended [0, 0, 1] 10 0 (1/2) 7 (by norm_num) (by norm_num)
     (by norm_num)⟩

/-- C9: every state the environment builds carries the same 29 feature keys
in the same order, so `get_state_space_size()` equals the length of the
state returned by `reset()` and of every state returned by `step()` within
one environment instance. -/
theorem C9_state_size_stability (env : MarketEnvironment) (item item2 : Item)
    (estep2 : ℕ) (now now2 now3 : WallClock) (expFn : ℚ → ℚ) (u1 u2 : ℚ)
    (a : ℤ) (h : env.current_item = some item) :
    (env.create_state item2 estep2 now2).map Prod.fst =
      MarketEnvironment.stateFeatureKeys ∧
    env.get_state_space_size now =
      Except.ok MarketEnvironment.stateFeatureKeys.length ∧
    ((env.reset item2 now2).2).map Prod.fst =
      MarketEnvironment.stateFeatureKeys ∧
    (env.stepPy expFn u1 u2 now3 a).map (fun r => (r.2.1).map Prod.fst) =
      Except.ok MarketEnvironment.stateFeatureKeys ∧
    MarketEnvironment.stateFeatureKeys.length = 29 := by
  have hkeys : ∀ (e : MarketEnvironment) (it : Item) (st : ℕ)
      (nw : WallClock), (e.create_state it st nw).map Prod.fst =
        MarketEnvironment.stateFeatureKeys := fun _ _ _ _ => rfl
  have hlen : ∀ (e : MarketEnvironment) (it : Item) (st : ℕ)
      (nw : WallClock), (e.create_state it st nw).length =
        MarketEnvironment.stateFeatureKeys.length := by
    intro e it st nw
    rw [← hkeys e it st nw, List.length_map]
  refine ⟨hkeys _ _ _ _, ?_, rfl, ?_, rfl⟩
  · have h2 : env.get_state_space_size now =
        Except.ok (env.create_state item env.episode_step now).length := by
      unfold MarketEnvironment.get_state_space_size
      rw [h]
    rw [h2, hlen]
  · unfold MarketEnvironment.stepPy
    rw [h]
    rfl

/-- Witness for C9: the state-size stability theorem applied to the default
environment holding the concrete laptop item. -/
theorem C9_state_size_stability_witness :
    defaultEnvWithItem.current_item = some laptopItem ∧
    ((defaultEnvWithItem.create_state laptopItem 0 ⟨0, 1⟩).map Prod.fst =
      MarketEnvironment.stateFeatureKeys ∧
     defaultEnvWithItem.get_state_space_size ⟨0, 1⟩ =
      Except.ok MarketEnvironment.stateFeatureKeys.length ∧
     ((defaultEnvWithItem.reset laptopItem ⟨0, 1⟩).2).map Prod.fst =
      MarketEnvironment.stateFeatureKeys ∧
     (defaultEnvWithItem.stepPy (fun x => x) 0 0 ⟨0, 1⟩ 3).map
        (fun r => (r.2.1).map Prod.fst) =
      Except.ok MarketEnvironment.stateFeatureKeys ∧
     MarketEnvironment.stateFeatureKeys.length = 29) :=
  ⟨rfl,
   C9_state_size_stability defaultEnvWithItem laptopItem laptopItem 0
     ⟨0, 1⟩ ⟨0, 1⟩ ⟨0, 1⟩ (fun x => x) 0 0 3 rfl⟩
